import Mathlib

/-!
Verification of the ETL utility in `etl.py`: a four-bucket scoring
function `dp013`, a per-row transform adding a `DP013` column, and a
warehouse load step with an empty-input short circuit.
-/

namespace Etl

/-- A cell value in a parsed table: numeric or string (mirrors the mixed
column types a CSV parse produces). -/
inductive Value where
  | num (n : Int)
  | str (s : String)
  deriving DecidableEq, Repr

/-- Errors the script can raise: a missing-column fault (`KeyError`), a
comparison on a non-numeric value (`TypeError`), and the warehouse-side
faults that a load job may surface. -/
inductive EtlError where
  | keyError (k : String)
  | typeError
  | accessError
  | schemaError
  | timeoutError
  deriving DecidableEq, Repr

/-- A table: an ordered list of named columns, each a list of cell
values (column-oriented, as a pandas DataFrame is). -/
structure DataFrame where
  cols : List (String × List Value)
  deriving DecidableEq, Repr

/-- Look up a column by name (first match), as `df[name]` does. -/
def DataFrame.getCol (df : DataFrame) (name : String) : Option (List Value) :=
  (df.cols.find? (fun c => c.1 == name)).map (fun c => c.2)

/-- Column assignment on the column list: replace an existing column of
that name, otherwise append a new one. -/
def updateCols (l : List (String × List Value)) (name : String) (vs : List Value) :
    List (String × List Value) :=
  if l.any (fun c => c.1 == name) then
    l.map (fun c => if c.1 == name then (name, vs) else c)
  else
    l ++ [(name, vs)]

/-- Assign a column, as `df[name] = vs` does. -/
def DataFrame.setCol (df : DataFrame) (name : String) (vs : List Value) : DataFrame :=
  ⟨updateCols df.cols name vs⟩

/-- Number of rows, as `len(df)`: the length of the (first) column; an
entirely column-free table has zero rows. -/
def DataFrame.nRows (df : DataFrame) : Nat :=
  match df.cols with
  | [] => 0
  | c :: _ => c.2.length

/-- Emptiness test, as `df.empty`: true when an axis has length zero. -/
def DataFrame.isEmpty (df : DataFrame) : Bool :=
  df.nRows = 0

/-- The scoring function from `etl.py`:
```
def dp013(resolution_time):
    if resolution_time <= 1800:
        return 10
    elif 1800 < resolution_time <= 7200:
        return 7
    elif 7200 < resolution_time <= 10800:
        return 5
    else:
        return 0
```
-/
def dp013 (resolution_time : Int) : Int :=
  if resolution_time ≤ 1800 then 10
  else if 1800 < resolution_time ∧ resolution_time ≤ 7200 then 7
  else if 7200 < resolution_time ∧ resolution_time ≤ 10800 then 5
  else 0

/-- Apply `dp013` to one cell, as `.apply(dp013)` does per element: a
numeric cell is scored; comparing a string to an integer raises a
`TypeError` in Python. -/
def applyDp013 (v : Value) : Except EtlError Int :=
  match v with
  | .num n => .ok (dp013 n)
  | .str _ => .error .typeError

/-- Whether a cell holds a number. -/
def Value.isNum : Value → Bool
  | .num _ => true
  | .str _ => false

/-- The numeric contents of a column, dropping non-numeric cells. -/
def numsOf : List Value → List Int
  | [] => []
  | .num n :: vs => n :: numsOf vs
  | .str _ :: vs => numsOf vs

/-- Elementwise application of `dp013` over a column, as
`Series.apply` performs it: in order, stopping at the first raised
exception. -/
def scoreList : List Value → Except EtlError (List Int)
  | [] => .ok []
  | v :: vs =>
      match applyDp013 v with
      | .error e => .error e
      | .ok n =>
          match scoreList vs with
          | .error e => .error e
          | .ok ns => .ok (n :: ns)

/-- The transform step, `df['DP013'] = df['calendar_duration'].apply(dp013)`:
looking up a missing column raises `KeyError`; applying `dp013` to a
non-numeric cell raises `TypeError`; otherwise the `DP013` column is
assigned the per-row scores. -/
def transform (df : DataFrame) : Except EtlError DataFrame :=
  match df.getCol "calendar_duration" with
  | none => .error (.keyError "calendar_duration")
  | some vs =>
      match scoreList vs with
      | .error e => .error e
      | .ok scores => .ok (df.setCol "DP013" (scores.map Value.num))

/-- The observable outcome of a submitted load job: `output_rows` may be
absent (`None`). -/
structure LoadJob where
  output_rows : Option Int
  deriving DecidableEq, Repr

/-- Python's `a or b` for an optional integer `a`: `None` and `0` are
falsy, so both fall through to `b`. -/
def pyOr (a : Option Int) (b : Int) : Int :=
  match a with
  | none => b
  | some n => if n = 0 then b else n

/-- `load_df_to_bq`, with the warehouse modelled as an oracle `submit`
(client construction, job submission and the blocking `result()` wait
lumped into one round trip). The result pairs the returned
`(success, rows)` with the number of network round trips performed.
`none` stands for `df is None`. -/
def load_df_to_bq : Option DataFrame → (DataFrame → Except EtlError LoadJob) →
    Except EtlError ((Bool × Int) × Nat)
  | none, _ => .ok ((true, 0), 0)
  | some d, submit =>
      if d.isEmpty then .ok ((true, 0), 0)
      else
        match submit d with
        | .error e => .error e
        | .ok job => .ok ((true, pyOr job.output_rows (d.nRows : Int)), 1)

/-- The `__main__` pipeline after fetch: transform the table, then load
it; any error propagates uncaught. -/
def runPipeline (df : DataFrame)
    (submit : DataFrame → Except EtlError LoadJob) :
    Except EtlError ((Bool × Int) × Nat) :=
  match transform df with
  | .error e => .error e
  | .ok df2 => load_df_to_bq (some df2) submit

/-- An honest warehouse oracle: the load job commits every submitted row
and reports that count. -/
def honestSubmit (d : DataFrame) : Except EtlError LoadJob :=
  .ok ⟨some (d.nRows : Int)⟩

/-- The `calendar_duration` column of the end-to-end scenario. -/
def srcCol : List Value :=
  [.num 500, .num 5000, .num 9000]

/-- The concrete 3-row source table of the end-to-end scenario. -/
def sourceDf : DataFrame :=
  ⟨[("calendar_duration", srcCol)]⟩

/-- The table the transform step produces from `sourceDf`. -/
def transformedDf : DataFrame :=
  ⟨[("calendar_duration", srcCol),
    ("DP013", [.num 10, .num 7, .num 5])]⟩

/-- A concrete table with no rows and no columns. -/
def emptyDf : DataFrame :=
  ⟨[]⟩

/-- A concrete table with no `calendar_duration` column. -/
def noColDf : DataFrame :=
  ⟨[("other", [.num 1])]⟩

/-- A concrete `calendar_duration` column holding a string cell. -/
def strCol : List Value :=
  [.num 500, .str "oops"]

/-- A concrete table whose `calendar_duration` column holds a string. -/
def strColDf : DataFrame :=
  ⟨[("calendar_duration", strCol)]⟩

end Etl

namespace Etl

/-- C1: every input at most 1800, negatives included, scores 10. -/
theorem dp013_le_1800 (r : Int) (h : r ≤ 1800) : dp013 r = 10 := by
  unfold dp013
  simp [h]

/-- Witness for C1 at the concrete inputs −100, 0 and 1800. -/
theorem dp013_le_1800_witness :
    dp013 (-100) = 10 ∧ dp013 0 = 10 ∧ dp013 1800 = 10 :=
  ⟨dp013_le_1800 (-100) (by decide), dp013_le_1800 0 (by decide),
    dp013_le_1800 1800 (by decide)⟩

/-- C2: every input strictly above 1800 and at most 7200 scores 7; the
upper boundary is closed. -/
theorem dp013_le_7200 (r : Int) (h1 : 1800 < r) (h2 : r ≤ 7200) :
    dp013 r = 7 := by
  unfold dp013
  split_ifs <;> omega

/-- Witness for C2 at the concrete inputs 1801 and 7200. -/
theorem dp013_le_7200_witness :
    dp013 1801 = 7 ∧ dp013 7200 = 7 :=
  ⟨dp013_le_7200 1801 (by decide) (by decide),
    dp013_le_7200 7200 (by decide) (by decide)⟩

/-- C3: every input strictly above 7200 and at most 10800 scores 5; the
upper boundary is closed. -/
theorem dp013_le_10800 (r : Int) (h1 : 7200 < r) (h2 : r ≤ 10800) :
    dp013 r = 5 := by
  unfold dp013
  split_ifs <;> omega

/-- Witness for C3 at the concrete inputs 7201 and 10800. -/
theorem dp013_le_10800_witness :
    dp013 7201 = 5 ∧ dp013 10800 = 5 :=
  ⟨dp013_le_10800 7201 (by decide) (by decide),
    dp013_le_10800 10800 (by decide) (by decide)⟩

/-- C4: every input strictly above 10800 scores 0. -/
theorem dp013_gt_10800 (r : Int) (h : 10800 < r) : dp013 r = 0 := by
  unfold dp013
  split_ifs <;> omega

/-- Witness for C4 at the concrete inputs 10801 and 1000000. -/
theorem dp013_gt_10800_witness :
    dp013 10801 = 0 ∧ dp013 1000000 = 0 :=
  ⟨dp013_gt_10800 10801 (by decide), dp013_gt_10800 1000000 (by decide)⟩

/-- Every `dp013` score lies in the set {0, 5, 7, 10}. -/
theorem dp013_mem_range (d : Int) :
    (dp013 d == 0 || dp013 d == 5 || dp013 d == 7 || dp013 d == 10) = true := by
  unfold dp013
  split_ifs <;> rfl

/-- On an all-numeric column, elementwise scoring returns the mapped
scores. -/
theorem scoreList_all_num (vs : List Value) (h : vs.all Value.isNum = true) :
    scoreList vs = .ok ((numsOf vs).map dp013) := by
  induction vs with
  | nil => rfl
  | cons v vs ih =>
    cases v with
    | num n =>
      simp only [List.all_cons, Value.isNum, Bool.true_and] at h
      simp [scoreList, applyDp013, numsOf, ih h]
    | str s =>
      simp [List.all_cons, Value.isNum] at h

/-- On a column with a non-numeric cell, elementwise scoring raises
`TypeError`. -/
theorem scoreList_not_all_num (vs : List Value) (h : vs.all Value.isNum = false) :
    scoreList vs = .error .typeError := by
  induction vs with
  | nil => simp at h
  | cons v vs ih =>
    cases v with
    | num n =>
      simp only [List.all_cons, Value.isNum, Bool.true_and] at h
      simp [scoreList, applyDp013, ih h]
    | str s => rfl

/-- An all-numeric column is recovered from its numeric contents. -/
theorem numsOf_map_num (vs : List Value) (h : vs.all Value.isNum = true) :
    (numsOf vs).map Value.num = vs := by
  induction vs with
  | nil => rfl
  | cons v vs ih =>
    cases v with
    | num n =>
      simp only [List.all_cons, Value.isNum, Bool.true_and] at h
      simp [numsOf, ih h]
    | str s => simp [List.all_cons, Value.isNum] at h

/-- Replacing a present column puts the new contents where the first
lookup finds them. -/
theorem find_update_self (l : List (String × List Value)) (name : String) (vs : List Value)
    (h : l.any (fun c => c.1 == name) = true) :
    (l.map (fun c => if c.1 == name then (name, vs) else c)).find? (fun c => c.1 == name) =
      some (name, vs) := by
  induction l with
  | nil => simp at h
  | cons c l ih =>
    simp only [List.map_cons]
    by_cases hc : (c.1 == name) = true
    · have hp : ((((name, vs) : String × List Value)).1 == name) = true := by simp
      rw [if_pos hc, List.find?_cons_of_pos (p := fun c : String × List Value => c.1 == name) _ hp]
    · rw [if_neg hc, List.find?_cons_of_neg (p := fun c : String × List Value => c.1 == name) _ hc]
      simp only [List.any_cons, Bool.or_eq_true] at h
      rcases h with h1 | h1
      · exact absurd h1 hc
      · exact ih h1

/-- Replacing one column leaves lookups of a differently named column
unchanged. -/
theorem find_update_ne (l : List (String × List Value)) (name name' : String) (vs : List Value)
    (h : (name == name') = false) :
    (l.map (fun c => if c.1 == name then (name, vs) else c)).find? (fun c => c.1 == name') =
      l.find? (fun c => c.1 == name') := by
  induction l with
  | nil => rfl
  | cons c l ih =>
    simp only [List.map_cons]
    by_cases hc : (c.1 == name) = true
    · have hce : c.1 = name := by simpa using hc
      have hcn : (c.1 == name') = false := by rw [hce]; exact h
      have hn1 : ¬((((name, vs) : String × List Value)).1 == name') = true := by
        simp [h]
      have hn2 : ¬((c.1 == name') = true) := by simp [hcn]
      rw [if_pos hc, List.find?_cons_of_neg (p := fun c : String × List Value => c.1 == name') _ hn1,
        List.find?_cons_of_neg (p := fun c : String × List Value => c.1 == name') _ hn2]
      exact ih
    · rw [if_neg hc]
      by_cases hp : (c.1 == name') = true
      · rw [List.find?_cons_of_pos (p := fun c : String × List Value => c.1 == name') _ hp,
          List.find?_cons_of_pos (p := fun c : String × List Value => c.1 == name') _ hp]
      · rw [List.find?_cons_of_neg (p := fun c : String × List Value => c.1 == name') _ hp,
          List.find?_cons_of_neg (p := fun c : String × List Value => c.1 == name') _ hp]
        exact ih

/-- The columns of an assignment are the updated column list. -/
theorem cols_setCol (df : DataFrame) (name : String) (vs : List Value) :
    (df.setCol name vs).cols = updateCols df.cols name vs := rfl

/-- Column lookup unfolded to the list level. -/
theorem getCol_eq (df : DataFrame) (name : String) :
    df.getCol name = (df.cols.find? (fun c => c.1 == name)).map (fun c => c.2) := rfl

/-- Looking up the column just assigned returns the assigned contents. -/
theorem getCol_setCol_self (df : DataFrame) (name : String) (vs : List Value) :
    (df.setCol name vs).getCol name = some vs := by
  rw [getCol_eq, cols_setCol]
  unfold updateCols
  by_cases h : df.cols.any (fun c => c.1 == name) = true
  · rw [if_pos h, find_update_self df.cols name vs h]
    rfl
  · rw [if_neg h]
    rw [Bool.not_eq_true] at h
    have hall := List.any_eq_false.mp h
    rw [List.find?_append, List.find?_eq_none.mpr hall]
    have hp : ((((name, vs) : String × List Value)).1 == name) = true := by simp
    rw [List.find?_cons_of_pos (p := fun c : String × List Value => c.1 == name) _ hp]
    rfl

/-- Assigning one column leaves lookups of a differently named column
unchanged. -/
theorem getCol_setCol_ne (df : DataFrame) (name name' : String) (vs : List Value)
    (h : (name == name') = false) :
    (df.setCol name vs).getCol name' = df.getCol name' := by
  rw [getCol_eq, getCol_eq, cols_setCol]
  unfold updateCols
  by_cases hA : df.cols.any (fun c => c.1 == name) = true
  · rw [if_pos hA, find_update_ne df.cols name name' vs h]
  · rw [if_neg hA, List.find?_append]
    have hone : ([(name, vs)].find? (fun c => c.1 == name')) = none := by
      have hn : ¬((((name, vs) : String × List Value)).1 == name') = true := by
        simp [h]
      rw [List.find?_cons_of_neg (p := fun c : String × List Value => c.1 == name') _ hn]
      rfl
    rw [hone]
    cases df.cols.find? (fun c => c.1 == name') <;> rfl

/-- The column-replacement map is idempotent on each entry. -/
theorem update_fun_idem (name : String) (vs : List Value) (c : String × List Value) :
    (if (if c.1 == name then (name, vs) else c).1 == name then (name, vs)
      else (if c.1 == name then (name, vs) else c)) =
      (if c.1 == name then (name, vs) else c) := by
  by_cases hc : (c.1 == name) = true
  · have hp : ((((name, vs) : String × List Value)).1 == name) = true := by simp
    rw [if_pos hc, if_pos hp]
  · rw [if_neg hc, if_neg hc]

/-- Assigning the same column contents twice equals assigning them
once. -/
theorem setCol_idem (df : DataFrame) (name : String) (vs : List Value) :
    (df.setCol name vs).setCol name vs = df.setCol name vs := by
  have key : updateCols (updateCols df.cols name vs) name vs = updateCols df.cols name vs := by
    unfold updateCols
    by_cases hA : df.cols.any (fun c => c.1 == name) = true
    · rw [if_pos hA]
      have hA2 : ((df.cols.map (fun c => if c.1 == name then (name, vs) else c)).any
          (fun c => c.1 == name)) = true := by
        rw [List.any_eq_true] at hA ⊢
        obtain ⟨x, hx, hpx⟩ := hA
        have hfx : (if x.1 == name then (name, vs) else x) = (name, vs) := if_pos hpx
        refine ⟨(name, vs), ?_, by simp⟩
        have hmem := List.mem_map_of_mem
          (fun c : String × List Value => if c.1 == name then (name, vs) else c) hx
        simp only [hfx] at hmem
        exact hmem
      rw [if_pos hA2, List.map_map]
      exact List.map_congr_left fun c _ => update_fun_idem name vs c
    · rw [if_neg hA]
      rw [Bool.not_eq_true] at hA
      have hall := List.any_eq_false.mp hA
      have hA2 : ((df.cols ++ [(name, vs)]).any (fun c => c.1 == name)) = true := by
        rw [List.any_append]
        have hs : ([(name, vs)].any (fun c => c.1 == name)) = true := by simp
        rw [hs, Bool.or_true]
      rw [if_pos hA2, List.map_append]
      have h1 : df.cols.map (fun c => if c.1 == name then (name, vs) else c) = df.cols := by
        conv_rhs => rw [← List.map_id df.cols]
        exact List.map_congr_left fun c hc => by rw [if_neg (hall c hc)]; rfl
      have h2 : ([(name, vs)].map (fun c => if c.1 == name then (name, vs) else c)) =
          [(name, vs)] := by
        simp
      rw [h1, h2]
  show (⟨updateCols (updateCols df.cols name vs) name vs⟩ : DataFrame) =
    ⟨updateCols df.cols name vs⟩
  rw [key]

/-- The transform raises `KeyError` on a table with no
`calendar_duration` column. -/
theorem transform_eq_none (df : DataFrame)
    (hc : df.getCol "calendar_duration" = none) :
    transform df = .error (.keyError "calendar_duration") := by
  unfold transform
  rw [hc]

/-- The transform on a present `calendar_duration` column reduces to
elementwise scoring followed by the column assignment. -/
theorem transform_eq_some (df : DataFrame) (vs : List Value)
    (hc : df.getCol "calendar_duration" = some vs) :
    transform df =
      match scoreList vs with
      | .error e => .error e
      | .ok scores => .ok (df.setCol "DP013" (scores.map Value.num)) := by
  unfold transform
  rw [hc]

/-- C5: after a successful transform, the source column is all numeric
and the `DP013` column is present, holding, row for row, `dp013` of
that row's `calendar_duration` value; every score lies in
{0, 5, 7, 10}. -/
theorem transform_dp013_column (df df' : DataFrame) (vs : List Value)
    (h : transform df = .ok df')
    (hc : df.getCol "calendar_duration" = some vs) :
    vs.all Value.isNum = true ∧
    (numsOf vs).map Value.num = vs ∧
    df'.getCol "DP013" = some (((numsOf vs).map dp013).map Value.num) ∧
    ((numsOf vs).map dp013).all (fun x => x == 0 || x == 5 || x == 7 || x == 10) = true := by
  have hall : vs.all Value.isNum = true := by
    cases hA : vs.all Value.isNum with
    | true => rfl
    | false =>
      have ht : transform df = .error .typeError := by
        rw [transform_eq_some df vs hc, scoreList_not_all_num vs hA]
      rw [ht] at h
      simp at h
  have ht : transform df =
      .ok (df.setCol "DP013" (((numsOf vs).map dp013).map Value.num)) := by
    rw [transform_eq_some df vs hc, scoreList_all_num vs hall]
  rw [ht] at h
  injection h with h'
  refine ⟨hall, numsOf_map_num vs hall, ?_, ?_⟩
  · rw [← h']
    exact getCol_setCol_self df "DP013" (((numsOf vs).map dp013).map Value.num)
  · rw [List.all_eq_true]
    intro x hx
    rw [List.mem_map] at hx
    obtain ⟨d, _, rfl⟩ := hx
    exact dp013_mem_range d

/-- Witness for C5 on the concrete 3-row source table. -/
theorem transform_dp013_column_witness :
    srcCol.all Value.isNum = true ∧
    (numsOf srcCol).map Value.num = srcCol ∧
    transformedDf.getCol "DP013" = some (((numsOf srcCol).map dp013).map Value.num) ∧
    ((numsOf srcCol).map dp013).all (fun x => x == 0 || x == 5 || x == 7 || x == 10) = true :=
  transform_dp013_column sourceDf transformedDf srcCol rfl rfl

/-- C6: on the 3-row source table with durations 500, 5000 and 9000,
the transform produces DP013 values 10, 7 and 5, and loading the
3-row result reports success with 3 rows after one warehouse round
trip. -/
theorem pipeline_end_to_end :
    transform sourceDf = .ok transformedDf ∧
    transformedDf.getCol "DP013" = some [Value.num 10, Value.num 7, Value.num 5] ∧
    transformedDf.nRows = 3 ∧
    runPipeline sourceDf honestSubmit = .ok ((true, 3), 1) :=
  ⟨rfl, rfl, rfl, rfl⟩

/-- C7: the transform is idempotent: a table produced by a successful
transform is a fixed point of the transform, so a second application
yields the same table and in particular the same `DP013` values. -/
theorem transform_idem (df df' : DataFrame) (h : transform df = .ok df') :
    transform df' = .ok df' := by
  cases hc : df.getCol "calendar_duration" with
  | none =>
    rw [transform_eq_none df hc] at h
    simp at h
  | some vs =>
    cases hs : scoreList vs with
    | error e =>
      have ht : transform df = .error e := by
        rw [transform_eq_some df vs hc, hs]
      rw [ht] at h
      simp at h
    | ok ns =>
      have ht : transform df = .ok (df.setCol "DP013" (ns.map Value.num)) := by
        rw [transform_eq_some df vs hc, hs]
      rw [ht] at h
      injection h with h'
      have hc' : (df.setCol "DP013" (ns.map Value.num)).getCol "calendar_duration" =
          some vs := by
        rw [getCol_setCol_ne df "DP013" "calendar_duration" (ns.map Value.num) (by decide)]
        exact hc
      have ht2 : transform (df.setCol "DP013" (ns.map Value.num)) =
          .ok ((df.setCol "DP013" (ns.map Value.num)).setCol "DP013" (ns.map Value.num)) := by
        rw [transform_eq_some (df.setCol "DP013" (ns.map Value.num)) vs hc', hs]
      rw [← h', ht2, setCol_idem]

/-- Witness for C7 on the concrete transformed 3-row table. -/
theorem transform_idem_witness : transform transformedDf = .ok transformedDf :=
  transform_idem sourceDf transformedDf rfl

/-- C8: an empty (or `None`) input table short-circuits the load:
success with zero rows and zero warehouse round trips, whatever the
warehouse would have answered. -/
theorem load_empty_short_circuit (df : Option DataFrame)
    (submit : DataFrame → Except EtlError LoadJob)
    (h : df = none ∨ ∃ d, df = some d ∧ d.isEmpty = true) :
    load_df_to_bq df submit = .ok ((true, 0), 0) := by
  rcases h with rfl | ⟨d, rfl, he⟩
  · rfl
  · simp only [load_df_to_bq]
    rw [if_pos he]

/-- Witness for C8 on a `None` table and on a concrete empty table. -/
theorem load_empty_short_circuit_witness :
    load_df_to_bq none honestSubmit = .ok ((true, 0), 0) ∧
    load_df_to_bq (some emptyDf) honestSubmit = .ok ((true, 0), 0) :=
  ⟨load_empty_short_circuit none honestSubmit (Or.inl rfl),
    load_empty_short_circuit (some emptyDf) honestSubmit (Or.inr ⟨emptyDf, rfl, rfl⟩)⟩

/-- C9: the transform cannot fail on an all-numeric
`calendar_duration` column; a missing column raises `KeyError` and a
non-numeric cell raises `TypeError`, and either error propagates
uncaught through the pipeline. -/
theorem transform_errors (df : DataFrame)
    (submit : DataFrame → Except EtlError LoadJob) :
    (df.getCol "calendar_duration" = none →
      transform df = .error (.keyError "calendar_duration") ∧
      runPipeline df submit = .error (.keyError "calendar_duration")) ∧
    (∀ vs, df.getCol "calendar_duration" = some vs →
      (vs.all Value.isNum = false →
        transform df = .error .typeError ∧
        runPipeline df submit = .error .typeError) ∧
      (vs.all Value.isNum = true →
        transform df = .ok (df.setCol "DP013" (((numsOf vs).map dp013).map Value.num)))) := by
  constructor
  · intro hc
    have ht := transform_eq_none df hc
    refine ⟨ht, ?_⟩
    unfold runPipeline
    rw [ht]
  · intro vs hc
    constructor
    · intro hA
      have ht : transform df = .error .typeError := by
        rw [transform_eq_some df vs hc, scoreList_not_all_num vs hA]
      refine ⟨ht, ?_⟩
      unfold runPipeline
      rw [ht]
    · intro hA
      rw [transform_eq_some df vs hc, scoreList_all_num vs hA]

/-- Witness for C9: the missing-column table, the string-cell table
and the numeric table, each at a concrete input. -/
theorem transform_errors_witness :
    transform noColDf = .error (.keyError "calendar_duration") ∧
    runPipeline noColDf honestSubmit = .error (.keyError "calendar_duration") ∧
    transform strColDf = .error .typeError ∧
    runPipeline strColDf honestSubmit = .error .typeError ∧
    transform sourceDf =
      .ok (sourceDf.setCol "DP013" (((numsOf srcCol).map dp013).map Value.num)) :=
  ⟨((transform_errors noColDf honestSubmit).1 rfl).1,
    ((transform_errors noColDf honestSubmit).1 rfl).2,
    (((transform_errors strColDf honestSubmit).2 strCol rfl).1 rfl).1,
    (((transform_errors strColDf honestSubmit).2 strCol rfl).1 rfl).2,
    ((transform_errors sourceDf honestSubmit).2 srcCol rfl).2 rfl⟩

/-- C10: whenever the load returns at all, its success flag is true:
every failure mode raises instead of returning. -/
theorem load_success_flag (df : Option DataFrame)
    (submit : DataFrame → Except EtlError LoadJob) (p : (Bool × Int) × Nat)
    (h : load_df_to_bq df submit = .ok p) : p.1.1 = true := by
  cases df with
  | none =>
    have h2 : (Except.ok ((true, 0), 0) : Except EtlError ((Bool × Int) × Nat)) =
        .ok p := h
    injection h2 with h'
    rw [← h']
  | some d =>
    simp only [load_df_to_bq] at h
    by_cases he : d.isEmpty = true
    · rw [if_pos he] at h
      injection h with h'
      rw [← h']
    · rw [if_neg he] at h
      cases hs : submit d with
      | error e =>
        rw [hs] at h
        simp at h
      | ok job =>
        rw [hs] at h
        have h2 : (Except.ok ((true, pyOr job.output_rows (d.nRows : Int)), 1) :
            Except EtlError ((Bool × Int) × Nat)) = .ok p := h
        injection h2 with h'
        rw [← h']

/-- Witness for C10 at the concrete 3-row load. -/
theorem load_success_flag_witness : ((((true, 3), 1) : (Bool × Int) × Nat)).1.1 = true :=
  load_success_flag (some sourceDf) honestSubmit ((true, 3), 1) rfl

end Etl
